import Mathlib

/-!
Verification development for the `hcaptcha_challenger` response-interpretation
pipeline: the cascading JSON extraction in `tools/common.py`
(`extract_json_blocks`, `extract_first_json_block`, `parse_json_from_response`),
the secondary coordinate scan and fallback logic of
`SpatialPointReasoner.invoke_async` in `tools/spatial_point_reasoning.py`,
the label matching of `ChallengeClassifier.invoke_async` in
`tools/challenge_classifier.py`, and the tenacity retry wrapper
`@retry(stop=stop_after_attempt(3), wait=wait_fixed(3), before_sleep=log-warning)`
placed on each `invoke_async`.

Python strings are modelled as Lean `String`/`List Char`; `json.loads` as a
fuelled recursive-descent parser returning `Option Json`; raised exceptions as
`Except PyErr`; the regular-expression `findall` calls as direct left-to-right
scanners that reproduce the concrete patterns used by the source.
-/

/-- Characters matched by Python's `\s` class (and stripped by `str.strip`),
restricted to ASCII, which is all the source's inputs use in the relevant
patterns: space, tab, newline, carriage return, vertical tab, form feed. -/
def pyIsSpace (c : Char) : Bool :=
  c == ' ' || c == '\t' || c == '\n' || c == '\r' || c == '\x0b' || c == '\x0c'

/-- Whitespace accepted by Python's `json` scanner between tokens. -/
def jsonWs (c : Char) : Bool :=
  c == ' ' || c == '\t' || c == '\n' || c == '\r'

/-- `str.strip()`: drop `pyIsSpace` characters from both ends. -/
def pyStrip (s : String) : String :=
  String.mk (((s.data.dropWhile pyIsSpace).reverse.dropWhile pyIsSpace).reverse)

/-- `str.lower()` (ASCII case folding; the substrings searched for by the
source are all ASCII). -/
def pyLower (s : String) : String :=
  String.mk (s.data.map Char.toLower)

/-- Value of a list of decimal digit characters, as computed by Python `int`. -/
def digitsVal (ds : List Char) : Nat :=
  ds.foldl (fun a c => a * 10 + (c.toNat - 48)) 0

/-- Does `needle` occur as a prefix of `hay`? -/
def startsWithSeq : List Char → List Char → Bool
  | [], _ => true
  | _ :: _, [] => false
  | a :: as, b :: bs => a == b && startsWithSeq as bs

/-- Python's `in` operator on strings: does `needle` occur contiguously in
`hay`? -/
def occursIn (needle : List Char) : List Char → Bool
  | [] => startsWithSeq needle []
  | c :: t => startsWithSeq needle (c :: t) || occursIn needle t

/-- Split `hay` at the first occurrence of `needle`: returns the part strictly
before the occurrence and the part strictly after it. -/
def splitAtSub (needle : List Char) : List Char → Option (List Char × List Char)
  | [] => if startsWithSeq needle [] then some ([], []) else none
  | c :: t =>
    if startsWithSeq needle (c :: t) then some ([], (c :: t).drop needle.length)
    else
      match splitAtSub needle t with
      | some (pre, post) => some (c :: pre, post)
      | none => none

/-- JSON values as produced by Python's `json.loads`.  Integer literals become
`num`; literals with a fraction or exponent (Python floats) keep their lexeme
in `numF` (float identity such as `1.0 = 1.00`, and underflow of tiny
exponents to `0.0`, are not modelled — no claim depends on them); `NaN` and
`Infinity`, which `json.loads` accepts, are stored as `numF` lexemes.
Objects are association lists in insertion order with last-wins duplicate
keys, mirroring `dict` construction. -/
inductive Json where
  | null
  | bool (b : Bool)
  | num (n : Int)
  | numF (lexeme : String)
  | str (s : String)
  | arr (elems : List Json)
  | obj (kvs : List (String × Json))

mutual

/-- Boolean equality on `Json` (needed because `deriving DecidableEq` does not
handle the nested `List` occurrences). -/
def Json.beq : Json → Json → Bool
  | .null, .null => true
  | .bool a, .bool b => a == b
  | .num a, .num b => a == b
  | .numF a, .numF b => a == b
  | .str a, .str b => a == b
  | .arr a, .arr b => Json.beqList a b
  | .obj a, .obj b => Json.beqKV a b
  | _, _ => false

/-- Pointwise `Json.beq` on lists. -/
def Json.beqList : List Json → List Json → Bool
  | [], [] => true
  | a :: as, b :: bs => Json.beq a b && Json.beqList as bs
  | _, _ => false

/-- Pointwise `Json.beq` on association lists. -/
def Json.beqKV : List (String × Json) → List (String × Json) → Bool
  | [], [] => true
  | (k, v) :: as, (k2, v2) :: bs => k == k2 && Json.beq v v2 && Json.beqKV as bs
  | _, _ => false

end

theorem Json.beq_iff : ∀ a b, (Json.beq a b = true ↔ a = b) := by
  apply Json.beq.induct
    (motive_1 := fun a b => (Json.beq a b = true ↔ a = b))
    (motive_2 := fun a b => (Json.beqKV a b = true ↔ a = b))
    (motive_3 := fun a b => (Json.beqList a b = true ↔ a = b))
  · simp [Json.beq]
  · intro a b; simp [Json.beq]
  · intro a b; simp [Json.beq]
  · intro a b; simp [Json.beq]
  · intro a b; simp [Json.beq]
  · intro a b ih; simpa [Json.beq] using ih
  · intro a b ih; simpa [Json.beq] using ih
  · intro t x h1 h2 h3 h4 h5 h6 h7
    cases t <;> cases x <;> simp_all [Json.beq]
  · simp [Json.beqList]
  · intro a as b bs ih1 ih2; simp [Json.beqList, ih1, ih2]
  · intro t x h1 h2
    cases t <;> cases x
    · exact (h1 rfl rfl).elim
    · simp [Json.beqList]
    · simp [Json.beqList]
    · exact (h2 _ _ _ _ rfl rfl).elim
  · simp [Json.beqKV]
  · intro k v as k2 v2 bs ih1 ih2
    simp [Json.beqKV, ih1, ih2, and_assoc]
  · intro t x h1 h2
    cases t <;> cases x
    · exact (h1 rfl rfl).elim
    · simp [Json.beqKV]
    · simp [Json.beqKV]
    · exact (h2 _ _ _ _ _ _ rfl rfl).elim

instance : DecidableEq Json := fun a b =>
  decidable_of_iff (Json.beq a b = true) (Json.beq_iff a b)

/-- Is this value a Python `dict`? -/
def Json.isObj : Json → Bool
  | .obj _ => true
  | _ => false

/-- Dictionary lookup on the association-list representation. -/
def lookupKV : List (String × Json) → String → Option Json
  | [], _ => none
  | (k, v) :: t, key => if k = key then some v else lookupKV t key

/-- `d[key] = v` on the association-list representation: replace in place if
the key exists (keeping its position), otherwise append. -/
def insertKV : List (String × Json) → String → Json → List (String × Json)
  | [], key, v => [(key, v)]
  | (k, w) :: t, key, v =>
    if k = key then (k, v) :: t else (k, w) :: insertKV t key v

/-- Does the mantissa (part before any exponent marker) contain a nonzero
digit?  Used for Python float truthiness of `numF` lexemes. -/
def mantissaNonzero (lex : String) : Bool :=
  (lex.data.takeWhile (fun c => !(c == 'e' || c == 'E'))).any
    (fun c => '1' ≤ c && c ≤ '9')

/-- Python truthiness of a `json.loads` result, as tested by
`if json_block := extract_first_json_block(text):`.  Falsy values: `None`,
`False`, `0`, `0.0`, `""`, `[]`, an empty dict. -/
def truthy : Json → Bool
  | .null => false
  | .bool b => b
  | .num n => n != 0
  | .numF lex =>
    if lex.data.any (fun c => c == 'N' || c == 'n' || c == 'I' || c == 'i')
    then true else mantissaNonzero lex
  | .str s => s != ""
  | .arr l => !l.isEmpty
  | .obj kvs => !kvs.isEmpty

/-- Hexadecimal value of a character, if any. -/
def hexVal : Char → Option Nat
  | c =>
    if '0' ≤ c && c ≤ '9' then some (c.toNat - 48)
    else if 'a' ≤ c && c ≤ 'f' then some (c.toNat - 87)
    else if 'A' ≤ c && c ≤ 'F' then some (c.toNat - 55)
    else none

/-- Parse exactly four hex digits. -/
def parseHex4 : List Char → Option (Nat × List Char)
  | a :: b :: c :: d :: rest =>
    match hexVal a, hexVal b, hexVal c, hexVal d with
    | some x, some y, some z, some w => some (((x * 16 + y) * 16 + z) * 16 + w, rest)
    | _, _, _, _ => none
  | _ => none

/-- Body of a JSON string, after the opening quote; `acc` holds the decoded
characters in reverse.  Strict mode as in `json.loads`: raw control characters
are rejected, the listed escapes are decoded, `\uXXXX` pairs of surrogates are
combined (a lone surrogate, which Python would keep, falls outside Lean's
`Char` and is mapped by `Char.ofNat` to NUL — no claim depends on it). -/
def parseStringBody : Nat → List Char → List Char → Option (String × List Char)
  | 0, _, _ => none
  | fuel + 1, acc, cs =>
    match cs with
    | [] => none
    | '"' :: rest => some (String.mk acc.reverse, rest)
    | '\\' :: rest =>
      match rest with
      | '"' :: r => parseStringBody fuel ('"' :: acc) r
      | '\\' :: r => parseStringBody fuel ('\\' :: acc) r
      | '/' :: r => parseStringBody fuel ('/' :: acc) r
      | 'b' :: r => parseStringBody fuel ('\x08' :: acc) r
      | 'f' :: r => parseStringBody fuel ('\x0c' :: acc) r
      | 'n' :: r => parseStringBody fuel ('\n' :: acc) r
      | 'r' :: r => parseStringBody fuel ('\r' :: acc) r
      | 't' :: r => parseStringBody fuel ('\t' :: acc) r
      | 'u' :: r =>
        match parseHex4 r with
        | none => none
        | some (n, r2) =>
          if 0xD800 ≤ n && n ≤ 0xDBFF then
            match r2 with
            | '\\' :: 'u' :: r3 =>
              match parseHex4 r3 with
              | some (m, r4) =>
                if 0xDC00 ≤ m && m ≤ 0xDFFF then
                  parseStringBody fuel
                    (Char.ofNat (0x10000 + (n - 0xD800) * 0x400 + (m - 0xDC00)) :: acc) r4
                else parseStringBody fuel (Char.ofNat n :: acc) r2
              | none => parseStringBody fuel (Char.ofNat n :: acc) r2
            | _ => parseStringBody fuel (Char.ofNat n :: acc) r2
          else parseStringBody fuel (Char.ofNat n :: acc) r2
      | _ => none
    | c :: rest =>
      if c.toNat < 0x20 then none else parseStringBody fuel (c :: acc) rest

/-- Lex a JSON number at the head of `cs` (after whitespace).  Pure integers
become `Json.num`; numbers with a fraction or exponent keep their lexeme in
`Json.numF`.  A `.` or `e` not followed by digits is not consumed, exactly as
Python's number regex leaves it for the surrounding parser to choke on. -/
def parseNumLex (cs : List Char) : Option (Json × List Char) :=
  let signNeg := cs.headD ' ' == '-'
  let cs1 := if signNeg then cs.tail else cs
  let intDs := cs1.takeWhile Char.isDigit
  let rest1 := cs1.dropWhile Char.isDigit
  if intDs.isEmpty then none
  else if intDs.length > 1 && intDs.headD '0' == '0' then none
  else
    let fracStep : List Char × List Char :=
      match rest1 with
      | '.' :: r =>
        if (r.takeWhile Char.isDigit).isEmpty then ([], rest1)
        else ('.' :: r.takeWhile Char.isDigit, r.dropWhile Char.isDigit)
      | _ => ([], rest1)
    let fracDs := fracStep.1
    let rest2 := fracStep.2
    let expStep : List Char × List Char :=
      match rest2 with
      | e :: r =>
        if e == 'e' || e == 'E' then
          let sgnStep : List Char × List Char :=
            match r with
            | s :: rr => if s == '+' || s == '-' then ([s], rr) else ([], r)
            | [] => ([], [])
          let ds := sgnStep.2.takeWhile Char.isDigit
          if ds.isEmpty then ([], rest2)
          else (e :: (sgnStep.1 ++ ds), sgnStep.2.dropWhile Char.isDigit)
        else ([], rest2)
      | [] => ([], rest2)
    let expDs := expStep.1
    let rest3 := expStep.2
    if fracDs.isEmpty && expDs.isEmpty then
      let v : Int := Int.ofNat (digitsVal intDs)
      some (.num (if signNeg then -v else v), rest1)
    else
      some (.numF (String.mk ((if signNeg then ['-'] else []) ++ intDs ++ fracDs ++ expDs)),
            rest3)

mutual

/-- Recursive-descent JSON value parser modelling `json.loads` (fuelled; the
fuel passed by `json_loads` strictly dominates the possible call depth). -/
def parseValue : Nat → List Char → Option (Json × List Char)
  | 0, _ => none
  | fuel + 1, cs =>
    match cs.dropWhile jsonWs with
    | [] => none
    | '{' :: rest =>
      match rest.dropWhile jsonWs with
      | '}' :: r => some (.obj [], r)
      | r => parseMembers fuel r []
    | '[' :: rest =>
      match rest.dropWhile jsonWs with
      | ']' :: r => some (.arr [], r)
      | r => parseElements fuel r []
    | '"' :: rest =>
      match parseStringBody (rest.length + 1) [] rest with
      | some (s, r) => some (.str s, r)
      | none => none
    | 't' :: 'r' :: 'u' :: 'e' :: r => some (.bool true, r)
    | 'f' :: 'a' :: 'l' :: 's' :: 'e' :: r => some (.bool false, r)
    | 'n' :: 'u' :: 'l' :: 'l' :: r => some (.null, r)
    | 'N' :: 'a' :: 'N' :: r => some (.numF "NaN", r)
    | 'I' :: 'n' :: 'f' :: 'i' :: 'n' :: 'i' :: 't' :: 'y' :: r =>
      some (.numF "Infinity", r)
    | '-' :: 'I' :: 'n' :: 'f' :: 'i' :: 'n' :: 'i' :: 't' :: 'y' :: r =>
      some (.numF "-Infinity", r)
    | rest => parseNumLex rest

/-- Object members after the opening brace (first member's opening quote
expected at the head, whitespace already stripped). -/
def parseMembers : Nat → List Char → List (String × Json) → Option (Json × List Char)
  | 0, _, _ => none
  | fuel + 1, cs, acc =>
    match cs with
    | '"' :: rest =>
      match parseStringBody (rest.length + 1) [] rest with
      | none => none
      | some (key, r1) =>
        match r1.dropWhile jsonWs with
        | ':' :: r2 =>
          match parseValue fuel r2 with
          | none => none
          | some (v, r3) =>
            match r3.dropWhile jsonWs with
            | ',' :: r4 => parseMembers fuel (r4.dropWhile jsonWs) (insertKV acc key v)
            | '}' :: r4 => some (.obj (insertKV acc key v), r4)
            | _ => none
        | _ => none
    | _ => none

/-- Array elements after the opening bracket (non-empty case). -/
def parseElements : Nat → List Char → List Json → Option (Json × List Char)
  | 0, _, _ => none
  | fuel + 1, cs, acc =>
    match parseValue fuel cs with
    | none => none
    | some (v, r) =>
      match r.dropWhile jsonWs with
      | ',' :: r2 => parseElements fuel r2 (v :: acc)
      | ']' :: r2 => some (.arr (v :: acc).reverse, r2)
      | _ => none

end

/-- Python's `json.loads`: parse one value, then require only whitespace to
remain; `none` models a raised `JSONDecodeError`. -/
def json_loads (s : String) : Option Json :=
  match parseValue (2 * s.length + 8) s.data with
  | some (v, rest) => if rest.dropWhile jsonWs = [] then some v else none
  | none => none

/-! ## `tools/common.py`: block extraction and the parse cascade -/

/-- Scanner behind `extract_json_blocks`'s
`re.findall(r"```json\s*([\s\S]*?)```", text)`: repeatedly locate the literal
opener, then the nearest closer (the capture group is lazy), capture the text
in between minus the leading whitespace eaten greedily by the `\s*`, and
resume after the closer. -/
def extractBlocksGo : Nat → List Char → List String
  | 0, _ => []
  | fuel + 1, cs =>
    match splitAtSub ("```json".data) cs with
    | none => []
    | some (_, rest) =>
      match splitAtSub ("```".data) rest with
      | none => []
      | some (seg, rest2) =>
        String.mk (seg.dropWhile pyIsSpace) :: extractBlocksGo fuel rest2

/-- `extract_json_blocks` from `tools/common.py` (its internal
`try`/`except` can never fire: the body only runs a regex findall). -/
def extract_json_blocks (text : String) : List String :=
  extractBlocksGo (text.length + 1) text.data

/-- Raised Python exceptions, as propagated between the modelled components.
tenacity's `RetryError` wrapper around the final exception is not given its
own constructor; the underlying exception is carried instead. -/
inductive PyErr where
  | transport (status : Nat) (body : String)
  | timeout
  | encode (msg : String)
  | jsonDecode
  | typeError
  | validation
deriving DecidableEq

/-- `extract_first_json_block` from `tools/common.py`: `None` when there are
no blocks, `json.loads` of the first block otherwise — which raises
(`.error`) when that block is not valid JSON. -/
def extract_first_json_block (text : String) : Except PyErr (Option Json) :=
  match extract_json_blocks text with
  | [] => .ok none
  | b :: _ =>
    match json_loads b with
    | some v => .ok (some v)
    | none => .error .jsonDecode

/-- Scanner behind `re.findall(r'\{[^{}]*(?:\{[^{}]*\}[^{}]*)*\}', text)`:
for a match attempt starting after an opening brace, walk characters with one
permitted nesting level; returns the number of characters consumed up to and
including the closing brace of the whole match. -/
def braceMatchLen : Nat → Bool → List Char → Option Nat
  | 0, _, _ => none
  | fuel + 1, inner, cs =>
    match cs with
    | [] => none
    | '{' :: r => if inner then none else (braceMatchLen fuel true r).map (· + 1)
    | '}' :: r =>
      if inner then (braceMatchLen fuel false r).map (· + 1) else some 1
    | _ :: r => (braceMatchLen fuel inner r).map (· + 1)

/-- Left-to-right non-overlapping findall for the brace pattern: on a failed
attempt the scan advances one character, on success it resumes after the
match. -/
def braceFindAll : Nat → List Char → List String
  | 0, _ => []
  | fuel + 1, cs =>
    match cs with
    | [] => []
    | '{' :: r =>
      match braceMatchLen (r.length + 1) false r with
      | some n => String.mk ('{' :: r.take n) :: braceFindAll fuel (r.drop n)
      | none => braceFindAll fuel r
    | _ :: r => braceFindAll fuel r

/-- All matches of the brace-delimited JSON-like pattern in `text`. -/
def braceMatches (text : String) : List String :=
  braceFindAll (text.length + 1) text.data

/-- One match attempt of `re.findall(r'\[(\d+),\s*(\d+)\]', text)` at the head
of `cs`. -/
def coordTry (cs : List Char) : Option ((Nat × Nat) × List Char) :=
  match cs with
  | '[' :: r =>
    let d1 := r.takeWhile Char.isDigit
    if d1.isEmpty then none
    else
      match r.drop d1.length with
      | ',' :: r2 =>
        let r3 := r2.dropWhile pyIsSpace
        let d2 := r3.takeWhile Char.isDigit
        if d2.isEmpty then none
        else
          match r3.drop d2.length with
          | ']' :: r4 => some ((digitsVal d1, digitsVal d2), r4)
          | _ => none
      | _ => none
  | _ => none

/-- findall loop for `coordTry`. -/
def coordFindAll : Nat → List Char → List (Nat × Nat)
  | 0, _ => []
  | fuel + 1, cs =>
    match cs with
    | [] => []
    | c :: t =>
      match coordTry (c :: t) with
      | some (p, rest) => p :: coordFindAll fuel rest
      | none => coordFindAll fuel t

/-- All `[a, b]` coordinate pairs found by strategy 3 of
`parse_json_from_response`. -/
def coordMatches (text : String) : List (Nat × Nat) :=
  coordFindAll (text.length + 1) text.data

/-- One match attempt of `re.findall(r'(\d+)\s*,\s*(\d+)', text)` at the head
of `cs`. -/
def numPairTry (cs : List Char) : Option ((Nat × Nat) × List Char) :=
  let d1 := cs.takeWhile Char.isDigit
  if d1.isEmpty then none
  else
    match (cs.drop d1.length).dropWhile pyIsSpace with
    | ',' :: r2 =>
      let r3 := r2.dropWhile pyIsSpace
      let d2 := r3.takeWhile Char.isDigit
      if d2.isEmpty then none
      else some ((digitsVal d1, digitsVal d2), r3.drop d2.length)
    | _ => none

/-- findall loop for `numPairTry`. -/
def numPairFindAll : Nat → List Char → List (Nat × Nat)
  | 0, _ => []
  | fuel + 1, cs =>
    match cs with
    | [] => []
    | c :: t =>
      match numPairTry (c :: t) with
      | some (p, rest) => p :: numPairFindAll fuel rest
      | none => numPairFindAll fuel t

/-- All loose `a, b` number pairs found by strategy 4 of
`parse_json_from_response`. -/
def numberPairs (text : String) : List (Nat × Nat) :=
  numPairFindAll (text.length + 1) text.data

/-- The sentinel payload returned when no strategy matches. -/
def sentinelPayload : Json :=
  .obj [("challenge_prompt", .str "failed to parse"),
        ("coordinates", .arr [.obj [("box_2d", .arr [.num 1, .num 1])]])]

/-- The payload returned by the outer `except` handler of
`parse_json_from_response`. -/
def parsingErrorPayload : Json :=
  .obj [("challenge_prompt", .str "parsing error"),
        ("coordinates", .arr [.obj [("box_2d", .arr [.num 1, .num 1])]])]

/-- Payload synthesised from coordinate pairs by strategies 3 and 4. -/
def coordPayload (ps : List (Nat × Nat)) : Json :=
  .obj [("challenge_prompt", .str "extracted from response"),
        ("coordinates",
         .arr (ps.map (fun p => .obj [("box_2d", .arr [.num p.1, .num p.2])])))]

/-- Strategies 2–5 of `parse_json_from_response`: first brace-delimited
substring that `json.loads` accepts, else synthesised `[a, b]` coordinates,
else synthesised loose pairs (limited to 3), else the sentinel. -/
def laterStrategies (text : String) : Json :=
  match (braceMatches text).filterMap json_loads with
  | v :: _ => v
  | [] =>
    match coordMatches text with
    | c :: cs => coordPayload (c :: cs)
    | [] =>
      match numberPairs text with
      | n :: ns => coordPayload ((n :: ns).take 3)
      | [] => sentinelPayload

/-- Body of `parse_json_from_response`'s `try` block.  The walrus test
`if json_block := extract_first_json_block(text):` returns the first block's
parse only when it is truthy; a `JSONDecodeError` from the first block
escapes the body (`.error`). -/
def parse_json_body (text : String) : Except PyErr Json :=
  match extract_first_json_block text with
  | .error e => .error e
  | .ok (some v) => if truthy v then .ok v else .ok (laterStrategies text)
  | .ok none => .ok (laterStrategies text)

/-- `parse_json_from_response` from `tools/common.py`: the `try` body, with
the blanket `except` handler turning any raised exception into the fixed
parsing-error payload.  Total — this is the component's never-raises
safety net. -/
def parse_json_from_response (text : String) : Json :=
  match parse_json_body text with
  | .ok v => v
  | .error _ => parsingErrorPayload

/-! ## `SpatialPointReasoner.invoke_async`: secondary coordinate scan -/

/-- The `"y":`-part of `re.findall(r'"x":\s*(\d+).*?"y":\s*(\d+)', text)`
tested at the head of `cs`: literal `"y":`, then `\s*`, then digits. -/
def quotedYTry (cs : List Char) : Option (Nat × List Char) :=
  match cs with
  | '"' :: 'y' :: '"' :: ':' :: r =>
    let r2 := r.dropWhile pyIsSpace
    let d := r2.takeWhile Char.isDigit
    if d.isEmpty then none else some (digitsVal d, r2.drop d.length)
  | _ => none

/-- The lazy `.*?` before the `"y":`-part: try the y-part at the current
position first, then advance one character, never across a newline (`.` does
not match `\n` — `re.DOTALL` is not set for these patterns). -/
def lazySeekQuotedY : Nat → List Char → Option (Nat × List Char)
  | 0, _ => none
  | fuel + 1, cs =>
    match quotedYTry cs with
    | some res => some res
    | none =>
      match cs with
      | [] => none
      | c :: t => if c == '\n' then none else lazySeekQuotedY fuel t

/-- One match attempt of `r'"x":\s*(\d+).*?"y":\s*(\d+)'` at the head of
`cs`. -/
def quotedXYTry (cs : List Char) : Option ((Nat × Nat) × List Char) :=
  match cs with
  | '"' :: 'x' :: '"' :: ':' :: r =>
    let r2 := r.dropWhile pyIsSpace
    let d1 := r2.takeWhile Char.isDigit
    if d1.isEmpty then none
    else
      let r3 := r2.drop d1.length
      match lazySeekQuotedY (r3.length + 1) r3 with
      | some (y, rest) => some ((digitsVal d1, y), rest)
      | none => none
  | _ => none

/-- The `y`-part of `re.findall(r'x[:\s]*(\d+).*?y[:\s]*(\d+)', text)`:
literal `y`, then any run of colons/whitespace, then digits. -/
def looseYTry (cs : List Char) : Option (Nat × List Char) :=
  match cs with
  | 'y' :: r =>
    let r2 := r.dropWhile (fun c => c == ':' || pyIsSpace c)
    let d := r2.takeWhile Char.isDigit
    if d.isEmpty then none else some (digitsVal d, r2.drop d.length)
  | _ => none

/-- Lazy seek for `looseYTry`, same newline restriction as
`lazySeekQuotedY`. -/
def lazySeekLooseY : Nat → List Char → Option (Nat × List Char)
  | 0, _ => none
  | fuel + 1, cs =>
    match looseYTry cs with
    | some res => some res
    | none =>
      match cs with
      | [] => none
      | c :: t => if c == '\n' then none else lazySeekLooseY fuel t

/-- One match attempt of `r'x[:\s]*(\d+).*?y[:\s]*(\d+)'` at the head of
`cs`. -/
def looseXYTry (cs : List Char) : Option ((Nat × Nat) × List Char) :=
  match cs with
  | 'x' :: r =>
    let r2 := r.dropWhile (fun c => c == ':' || pyIsSpace c)
    let d1 := r2.takeWhile Char.isDigit
    if d1.isEmpty then none
    else
      let r3 := r2.drop d1.length
      match lazySeekLooseY (r3.length + 1) r3 with
      | some (y, rest) => some ((digitsVal d1, y), rest)
      | none => none
  | _ => none

/-- One match attempt of `re.findall(r'\((\d+),\s*(\d+)\)', text)` at the head
of `cs`. -/
def parenPairTry (cs : List Char) : Option ((Nat × Nat) × List Char) :=
  match cs with
  | '(' :: r =>
    let d1 := r.takeWhile Char.isDigit
    if d1.isEmpty then none
    else
      match r.drop d1.length with
      | ',' :: r2 =>
        let r3 := r2.dropWhile pyIsSpace
        let d2 := r3.takeWhile Char.isDigit
        if d2.isEmpty then none
        else
          match r3.drop d2.length with
          | ')' :: r4 => some ((digitsVal d1, digitsVal d2), r4)
          | _ => none
      | _ => none
  | _ => none

/-- Generic non-overlapping findall loop over a single-attempt matcher. -/
def pairFindAll (attempt : List Char → Option ((Nat × Nat) × List Char)) :
    Nat → List Char → List (Nat × Nat)
  | 0, _ => []
  | fuel + 1, cs =>
    match cs with
    | [] => []
    | c :: t =>
      match attempt (c :: t) with
      | some (p, rest) => p :: pairFindAll attempt fuel rest
      | none => pairFindAll attempt fuel t

/-- The secondary coordinate scan of `SpatialPointReasoner.invoke_async`
(lines 144–163): all matches of the three `coord_patterns` in pattern order,
keeping only pairs in the plausible pixel range
`50 <= x <= 800 and 50 <= y <= 600`. -/
def scanPoints (text : String) : List (Nat × Nat) :=
  ((pairFindAll quotedXYTry (text.length + 1) text.data) ++
   (pairFindAll looseXYTry (text.length + 1) text.data) ++
   (pairFindAll parenPairTry (text.length + 1) text.data)).filter
    (fun p => 50 ≤ p.1 && p.1 ≤ 800 && 50 ≤ p.2 && p.2 ≤ 600)

/-- The fixed default pair of points substituted when the secondary scan
finds nothing valid (the "fallback positions" of lines 164–172). -/
def defaultScanPoints : List (Nat × Nat) := [(325, 467), (515, 647)]

/-! ## Reasoner answer types and `ChallengeClassifier` label matching -/

/-- Modelled from the spec: `ChallengeTypeEnum` is defined in
`hcaptcha_challenger/models.py`, which is not among the sources; only its
importers are.  The four labels and their order follow the spec's classifier
table ("one of 4 fixed category labels", fallback "first enum label
(`image_label_single_select`)") and the numbered list in the classifier
instructions embedded in `tools/challenge_classifier.py`. -/
inductive ChallengeTypeEnum where
  | image_label_single_select
  | image_label_multi_select
  | image_drag_single
  | image_drag_multi
deriving DecidableEq

/-- The string value of each enum label. -/
def ChallengeTypeEnum.value : ChallengeTypeEnum → String
  | .image_label_single_select => "image_label_single_select"
  | .image_label_multi_select => "image_label_multi_select"
  | .image_drag_single => "image_drag_single"
  | .image_drag_multi => "image_drag_multi"

/-- Position of a label in enum definition order. -/
def ChallengeTypeEnum.idx : ChallengeTypeEnum → Nat
  | .image_label_single_select => 0
  | .image_label_multi_select => 1
  | .image_drag_single => 2
  | .image_drag_multi => 3

/-- Iteration order of `for challenge_type in ChallengeTypeEnum`. -/
def challengeTypeOrder : List ChallengeTypeEnum :=
  [.image_label_single_select, .image_label_multi_select,
   .image_drag_single, .image_drag_multi]

/-- The label-selection loop of `ChallengeClassifier.invoke_async`
(lines 105–110): the first enum member whose value occurs as a substring of
the lowercased response text, defaulting to the first enum label. -/
def classifyLabel (text : String) : ChallengeTypeEnum :=
  (challengeTypeOrder.find?
      (fun e => occursIn e.value.data (pyLower text).data)).getD
    .image_label_single_select

/-- Modelled from the spec: the `ImageAreaSelectChallenge` pydantic model
lives in `hcaptcha_challenger/models.py`, which is not among the sources.
Per the spec's data model it is the ClickPoints variant of StructuredAnswer:
a non-empty prompt and a list of click points with plain integer
coordinates. -/
structure ImageAreaSelectChallenge where
  challenge_prompt : String
  points : List (Int × Int)
deriving DecidableEq

deriving instance DecidableEq for Except

/-- Decode one element of a `points` list: a dict with integer `x` and `y`.
Anything else fails pydantic validation (spec: "coordinates are plain
integers, no implicit unit conversion"). -/
def decodePoint : Json → Option (Int × Int)
  | .obj kvs =>
    match lookupKV kvs "x", lookupKV kvs "y" with
    | some (.num x), some (.num y) => some (x, y)
    | _, _ => none
  | _ => none

/-- Decode a whole `points` list. -/
def decodePointList : List Json → Option (List (Int × Int))
  | [] => some []
  | j :: t =>
    match decodePoint j, decodePointList t with
    | some p, some ps => some (p :: ps)
    | _, _ => none

/-- Modelled from the spec: construction `ImageAreaSelectChallenge(**d)`.
Requires a string `challenge_prompt` and a well-shaped `points` list;
extra keys (such as the interpreter's `coordinates`) are ignored, pydantic's
default for unexpected fields; a shape violation raises a validation error,
which the reasoner's blanket `except` turns into the fallback answer. -/
def mkImageAreaSelectChallenge (kvs : List (String × Json)) :
    Except PyErr ImageAreaSelectChallenge :=
  match lookupKV kvs "challenge_prompt" with
  | some (.str p) =>
    match lookupKV kvs "points" with
    | some (.arr l) =>
      match decodePointList l with
      | some ps => .ok ⟨p, ps⟩
      | none => .error .validation
    | _ => .error .validation
  | _ => .error .validation

/-- JSON encoding of a scanned point, as inserted by
`points.append(\x7b"x": x, "y": y\x7d)`. -/
def pointToJson (p : Nat × Nat) : Json :=
  .obj [("x", .num p.1), ("y", .num p.2)]

/-- The post-chat processing of `SpatialPointReasoner.invoke_async`
(lines 138–180), as a function of the raw response text and the
`auxiliary_information` argument (Python `None` is merged with `""`, both
falsy): interpret the text, default `challenge_prompt` when missing, and when
`points` is missing fill it from the secondary regex scan, falling back to
the fixed default pair; finally construct the typed answer.  A non-dict
interpreted payload makes the subsequent `in`/item-assignment/indexing raise
`TypeError` on every path, modelled as `.error .typeError`. -/
def spatialPointReshape (text aux : String) :
    Except PyErr ImageAreaSelectChallenge :=
  match parse_json_from_response text with
  | .obj kvs0 =>
    let kvs1 :=
      if (lookupKV kvs0 "challenge_prompt").isNone then
        insertKV kvs0 "challenge_prompt"
          (.str (if aux = "" then "spatial point selection" else aux))
      else kvs0
    let kvs2 :=
      if (lookupKV kvs1 "points").isNone then
        let pts := scanPoints text
        insertKV kvs1 "points"
          (.arr ((if pts.isEmpty then defaultScanPoints else pts).map pointToJson))
      else kvs1
    mkImageAreaSelectChallenge kvs2
  | _ => .error .typeError

/-- The fallback answer returned by `SpatialPointReasoner.invoke_async`'s
`except` handler (lines 185–191). -/
def spatialFallbackAnswer : ImageAreaSelectChallenge :=
  ⟨"error occurred - using fallback", [(325, 467), (515, 647)]⟩

/-! ## The tenacity retry wrapper and the per-attempt environments -/

/-- Model of the decorator
`@retry(stop=stop_after_attempt(3), wait=wait_fixed(3), before_sleep=warn)`
applied to each `invoke_async`.  `f k` is the outcome of attempt `k`
(0-based; tenacity's `attempt_number` is `k + 1`).  Returns the final
outcome, the number of retry warnings logged by `before_sleep` (each
accompanied by the fixed 3-second wait), and the number of attempts made.
After the third failed attempt the final exception escapes (tenacity wraps
it in a `RetryError`; the model carries the underlying exception). -/
def retryStopAfterAttempt3 {E A : Type} (f : Nat → Except E A) :
    Except E A × Nat × Nat :=
  match f 0 with
  | .ok a => (.ok a, 0, 1)
  | .error _ =>
    match f 1 with
    | .ok a => (.ok a, 1, 2)
    | .error _ => (f 2, 2, 3)

/-- Outcomes supplied by the outside world to one attempt of
`SpatialPointReasoner.invoke_async`: the two `client._encode_image` calls
(base64 blob or raised `Encode` error) and the `client.chat` call (the
response's `message.content` text, or a raised transport/timeout error). -/
structure SpatialEnv where
  encodeChallenge : Except PyErr String
  encodeGrid : Except PyErr String
  chat : Except PyErr String

/-- One attempt of `SpatialPointReasoner.invoke_async` (the decorated
function body): the image encodings run before the inner `try` block, so
their exceptions escape the attempt; the `try` covers the chat call and all
response processing, and its `except` substitutes the fallback answer for
any exception raised inside. -/
def spatialPointAttempt (env : SpatialEnv) (aux : String) :
    Except PyErr ImageAreaSelectChallenge :=
  match env.encodeChallenge with
  | .error e => .error e
  | .ok _ =>
    match env.encodeGrid with
    | .error e => .error e
    | .ok _ =>
      match
        ((match env.chat with
          | .error e => .error e
          | .ok text => spatialPointReshape text aux) :
          Except PyErr ImageAreaSelectChallenge) with
      | .ok ans => .ok ans
      | .error _ => .ok spatialFallbackAnswer

/-- `SpatialPointReasoner.invoke_async` under the retry decorator, with
`envs k` the world's behaviour on attempt `k`. -/
def spatialPointInvokeAsync (envs : Nat → SpatialEnv) (aux : String) :
    Except PyErr ImageAreaSelectChallenge × Nat × Nat :=
  retryStopAfterAttempt3 (fun k => spatialPointAttempt (envs k) aux)

/-- Outcomes supplied to one attempt of
`ChallengeClassifier.invoke_async`. -/
structure ClassifierEnv where
  encodeImage : Except PyErr String
  chat : Except PyErr String

/-- One attempt of `ChallengeClassifier.invoke_async`: encoding before the
`try`; inside it, the chat call, then `.strip()` and the label-matching
loop (which cannot raise); the `except` substitutes the first enum label. -/
def challengeClassifierAttempt (env : ClassifierEnv) :
    Except PyErr ChallengeTypeEnum :=
  match env.encodeImage with
  | .error e => .error e
  | .ok _ =>
    match env.chat with
    | .ok text => .ok (classifyLabel (pyStrip text))
    | .error _ => .ok ChallengeTypeEnum.image_label_single_select

/-- `ChallengeClassifier.invoke_async` under the retry decorator. -/
def challengeClassifierInvokeAsync (envs : Nat → ClassifierEnv) :
    Except PyErr ChallengeTypeEnum × Nat × Nat :=
  retryStopAfterAttempt3 (fun k => challengeClassifierAttempt (envs k))

/-! ## Claims about the parse cascade -/

/-- C2, amended theorem: `parse_json_from_response` is a total function that
never raises — when its `try` body returns a value the function returns that
value, and when the body raises (only possible for an ill-formed first tagged
block) the blanket handler returns the fixed parsing-error payload instead of
propagating.  (The claim's "always returns a structured mapping" part fails:
see the counterexample — a truthy non-object tagged block is returned
as-is.) -/
theorem C2_amended_never_raises (t : String) :
    (∀ v, parse_json_body t = .ok v → parse_json_from_response t = v) ∧
    (∀ e, parse_json_body t = .error e →
        parse_json_from_response t = parsingErrorPayload) := by
  constructor
  · intro v h; simp [parse_json_from_response, h]
  · intro e h; simp [parse_json_from_response, h]

/-- C2, witness for the amended theorem at concrete inputs: a raising body
(ill-formed tagged block) yields the parsing-error payload, and an ordinary
input returns its body's value. -/
theorem C2_witness :
    parse_json_from_response "```json\nbad\n```" = parsingErrorPayload ∧
    parse_json_from_response "plain text" = sentinelPayload :=
  ⟨(C2_amended_never_raises "```json\nbad\n```").2 .jsonDecode (by decide),
   (C2_amended_never_raises "plain text").1 sentinelPayload (by decide)⟩

/-- C2, counterexample to the claim as stated: the interpreter does not
always return a structured mapping — a tagged block holding a (truthy) JSON
array is returned unchanged, a list rather than a dict, despite the declared
`Dict[str, Any]` return type. -/
theorem C2_counterexample :
    parse_json_from_response "```json\n[1, 2]\n```" = .arr [.num 1, .num 2] ∧
    Json.isObj (parse_json_from_response "```json\n[1, 2]\n```") = false := by
  decide

/-- C3, amended theorem (round-trip restricted to truthy payloads): whenever
the first tagged fenced block's content parses to a truthy JSON value, the
interpreter returns exactly that parsed content. -/
theorem C3_amended_truthy_block_roundtrip (t b : String) (rest : List String)
    (v : Json) (hb : extract_json_blocks t = b :: rest)
    (hl : json_loads b = some v) (ht : truthy v = true) :
    parse_json_from_response t = v := by
  simp [parse_json_from_response, parse_json_body, extract_first_json_block,
        hb, hl, ht]

/-- C3, witness: serialising the payload `\x7b"a": 1\x7d` into a tagged block and
interpreting recovers the payload. -/
theorem C3_witness :
    parse_json_from_response "```json\n\x7b\"a\": 1\x7d\n```" =
      .obj [("a", .num 1)] :=
  C3_amended_truthy_block_roundtrip _ "\x7b\"a\": 1\x7d\n" [] _ (by decide)
    (by decide) (by decide)

/-- C3, counterexample to the unrestricted round-trip: `null` is a well-formed
tagged block whose content parses successfully, but the interpreter falls
through to the sentinel instead of returning the parsed `null`. -/
theorem C3_counterexample :
    extract_json_blocks "```json\nnull\n```" = ["null\n"] ∧
    json_loads "null\n" = some .null ∧
    parse_json_from_response "```json\nnull\n```" = sentinelPayload ∧
    sentinelPayload ≠ Json.null := by decide

/-- C9: when the first tagged block parses to a value that is falsy in Python
(`\x7b\x7d`, `[]`, `0`, `null`, …), the walrus test treats the block as absent and
the interpreter's result is exactly that of the later strategies
(brace scan, coordinate synthesis, sentinel). -/
theorem C9_falsy_block_falls_through (t b : String) (rest : List String)
    (v : Json) (hb : extract_json_blocks t = b :: rest)
    (hl : json_loads b = some v) (ht : truthy v = false) :
    parse_json_from_response t = laterStrategies t := by
  simp [parse_json_from_response, parse_json_body, extract_first_json_block,
        hb, hl, ht]

/-- C9, witness: a tagged block containing `0` parses successfully but is
falsy; the cascade falls through to the sentinel, so the round-trip fails
on this block. -/
theorem C9_witness :
    parse_json_from_response "```json\n0\n```" = laterStrategies "```json\n0\n```" ∧
    laterStrategies "```json\n0\n```" = sentinelPayload ∧
    sentinelPayload ≠ Json.num 0 :=
  ⟨C9_falsy_block_falls_through _ "0\n" [] (.num 0) (by decide) (by decide)
     (by decide),
   by decide, by decide⟩

/-- C6: on text with no recognisable structure — no tagged block, no
brace-delimited substring accepted by `json.loads`, no bracketed pair, no
loose number pair — the interpreter returns the fixed sentinel payload
`\x7bchallenge_prompt: "failed to parse", coordinates: [\x7bbox_2d: [1, 1]\x7d]\x7d`
(determinism is immediate: the model is a function). -/
theorem C6_sentinel_when_nothing_matches (t : String)
    (hb : extract_json_blocks t = [])
    (hbr : (braceMatches t).filterMap json_loads = [])
    (hc : coordMatches t = []) (hn : numberPairs t = []) :
    parse_json_from_response t = sentinelPayload := by
  simp [parse_json_from_response, parse_json_body, extract_first_json_block,
        laterStrategies, hb, hbr, hc, hn]

/-- C6, witness at a concrete structureless input. -/
theorem C6_witness :
    parse_json_from_response "I cannot help with that." = sentinelPayload :=
  C6_sentinel_when_nothing_matches "I cannot help with that." (by decide)
    (by decide) (by decide) (by decide)

/-- C4, amended theorem: the strategies are tried in the fixed priority order
tagged block → brace scan → bracketed pairs → loose pairs → sentinel, with
two code-mandated provisos: (a) strategy 1 wins only when its parse is
truthy; and (b) a tagged block whose content is NOT valid JSON does not fall
through — the `JSONDecodeError` escapes the `try` body and the interpreter
returns the parsing-error payload, aborting the cascade. -/
theorem C4_amended_strategy_order (t : String) :
    (∀ b rest, extract_json_blocks t = b :: rest → json_loads b = none →
        parse_json_from_response t = parsingErrorPayload) ∧
    (extract_json_blocks t = [] →
      (∀ v vs, (braceMatches t).filterMap json_loads = v :: vs →
          parse_json_from_response t = v) ∧
      ((braceMatches t).filterMap json_loads = [] →
        (∀ c cs, coordMatches t = c :: cs →
            parse_json_from_response t = coordPayload (c :: cs)) ∧
        (coordMatches t = [] → ∀ n ns, numberPairs t = n :: ns →
            parse_json_from_response t = coordPayload ((n :: ns).take 3)))) := by
  refine ⟨?_, fun hb => ⟨?_, fun hbr => ⟨?_, fun hc n ns hn => ?_⟩⟩⟩
  · intro b rest hb hl
    simp [parse_json_from_response, parse_json_body, extract_first_json_block,
          hb, hl]
  · intro v vs hbr
    simp [parse_json_from_response, parse_json_body, extract_first_json_block,
          laterStrategies, hb, hbr]
  · intro c cs hc
    simp [parse_json_from_response, parse_json_body, extract_first_json_block,
          laterStrategies, hb, hbr, hc]
  · simp [parse_json_from_response, parse_json_body, extract_first_json_block,
          laterStrategies, hb, hbr, hc, hn]

/-- C4, witness for the amended theorem: an invalid tagged block aborts the
cascade with the parsing-error payload; with no tagged block, a valid brace
substring wins; with neither, bracketed pairs are synthesised; with only
loose pairs, up to three are synthesised. -/
theorem C4_witness :
    parse_json_from_response "```json\noops\n```" = parsingErrorPayload ∧
    parse_json_from_response "ans \x7b\"k\": 2\x7d." = .obj [("k", .num 2)] ∧
    parse_json_from_response "pt [7, 8] here" = coordPayload [(7, 8)] ∧
    parse_json_from_response "9, 8, 7, 6, 5" =
      coordPayload [(9, 8), (7, 6)] :=
  ⟨(C4_amended_strategy_order "```json\noops\n```").1 "oops\n" [] (by decide)
     (by decide),
   ((C4_amended_strategy_order "ans \x7b\"k\": 2\x7d.").2 (by decide)).1
     (.obj [("k", .num 2)]) [] (by decide),
   (((C4_amended_strategy_order "pt [7, 8] here").2 (by decide)).2
       (by decide)).1 (7, 8) [] (by decide),
   by
     have h := (((C4_amended_strategy_order "9, 8, 7, 6, 5").2 (by decide)).2
       (by decide)).2 (by decide) (9, 8) [(7, 6)] (by decide)
     simpa using h⟩

/-- C4, counterexample to the claim as stated: the tagged block `not json` is
not valid JSON and the text contains the later brace-delimited valid JSON
substring `\x7b"a": 1\x7d`, yet the interpreter returns the parsing-error payload,
not the brace-scan result. -/
theorem C4_counterexample :
    extract_json_blocks "```json\nnot json\n``` \x7b\"a\": 1\x7d" = ["not json\n"] ∧
    json_loads "not json\n" = none ∧
    (braceMatches "```json\nnot json\n``` \x7b\"a\": 1\x7d").filterMap json_loads =
      [.obj [("a", .num 1)]] ∧
    parse_json_from_response "```json\nnot json\n``` \x7b\"a\": 1\x7d" =
      parsingErrorPayload ∧
    parsingErrorPayload ≠ .obj [("a", .num 1)] := by decide

/-! ## Claims about SpatialPointReasoner's points fallback -/

theorem lookupKV_insertKV_self (kvs : List (String × Json)) (key : String)
    (v : Json) : lookupKV (insertKV kvs key v) key = some v := by
  induction kvs with
  | nil => simp [insertKV, lookupKV]
  | cons h t ih =>
    obtain ⟨k, w⟩ := h
    by_cases hk : k = key
    · simp [insertKV, lookupKV, hk]
    · simp [insertKV, lookupKV, hk, ih]

theorem lookupKV_insertKV_ne (kvs : List (String × Json)) (key k : String)
    (v : Json) (h : key ≠ k) :
    lookupKV (insertKV kvs key v) k = lookupKV kvs k := by
  induction kvs with
  | nil => simp [insertKV, lookupKV, h]
  | cons p t ih =>
    obtain ⟨k2, w⟩ := p
    by_cases hk : k2 = key
    · subst hk; simp [insertKV, lookupKV, h]
    · simp [insertKV, lookupKV, hk, ih]

theorem decodePointList_map (l : List (Nat × Nat)) :
    decodePointList (l.map pointToJson) =
      some (l.map (fun p => ((p.1 : Int), (p.2 : Int)))) := by
  induction l with
  | nil => simp [decodePointList]
  | cons p t ih =>
    simp [decodePointList, pointToJson, decodePoint, lookupKV, ih]

/-- Shape test on the interpreted payload's `challenge_prompt` field used as
a hypothesis of the C7 theorem: absent, or present as a string (pydantic
accepts it as-is in either case once the reasoner's default fills it in). -/
def promptFieldOk (kvs : List (String × Json)) : Bool :=
  match lookupKV kvs "challenge_prompt" with
  | none => true
  | some (.str _) => true
  | some _ => false

/-- Reduction of the pydantic construction after the reasoner has inserted a
well-shaped `points` list, given a string prompt field. -/
theorem mkIASC_insert_points (kvs1 : List (String × Json)) (P : String)
    (l : List (Nat × Nat))
    (hcp : lookupKV kvs1 "challenge_prompt" = some (.str P)) :
    mkImageAreaSelectChallenge (insertKV kvs1 "points" (.arr (l.map pointToJson))) =
      .ok ⟨P, l.map (fun p => ((p.1 : Int), (p.2 : Int)))⟩ := by
  simp only [mkImageAreaSelectChallenge,
             lookupKV_insertKV_ne kvs1 "points" "challenge_prompt" _ (by decide),
             hcp, lookupKV_insertKV_self, decodePointList_map]

/-- C7: when the interpreted payload is a dict without the `points` field
(and its `challenge_prompt`, if present, is a string), the reasoner fills
`points` from the secondary regex scan of the raw text — every pattern match
validated to lie in `50 ≤ x ≤ 800`, `50 ≤ y ≤ 600` — and only when no
scanned pair is valid does it substitute the fixed default pair
`(325, 467), (515, 647)`. -/
theorem C7_points_fallback_scan_then_default (text aux : String)
    (kvs : List (String × Json))
    (hp : parse_json_from_response text = .obj kvs)
    (hnopts : lookupKV kvs "points" = none)
    (hprompt : promptFieldOk kvs = true) :
    ∃ ans, spatialPointReshape text aux = .ok ans ∧
      ans.points =
        ((if (scanPoints text).isEmpty then defaultScanPoints
          else scanPoints text).map (fun p => ((p.1 : Int), (p.2 : Int)))) := by
  have hne : ("challenge_prompt" : String) ≠ "points" := by decide
  simp only [spatialPointReshape, hp]
  unfold promptFieldOk at hprompt
  cases hcp : lookupKV kvs "challenge_prompt" with
  | none =>
    simp only [hcp, Option.isNone_none, if_true,
               lookupKV_insertKV_ne kvs "challenge_prompt" "points" _ hne,
               hnopts]
    rw [mkIASC_insert_points _ _ _ (lookupKV_insertKV_self kvs _ _)]
    exact ⟨_, rfl, rfl⟩
  | some v =>
    rw [hcp] at hprompt
    cases v with
    | str s =>
      simp only [hcp, Option.isNone_some, Bool.false_eq_true, if_false,
                 hnopts, Option.isNone_none, if_true]
      rw [mkIASC_insert_points _ _ _ hcp]
      exact ⟨_, rfl, rfl⟩
    | null => simp at hprompt
    | bool b => simp at hprompt
    | num n => simp at hprompt
    | numF lex => simp at hprompt
    | arr l => simp at hprompt
    | obj o => simp at hprompt

/-- C7, witness: `x: 120 y: 340` embedded in otherwise unstructured text is
recovered by the secondary scan (never the default), while fully
unrecoverable text falls to the fixed default pair. -/
theorem C7_witness :
    (∃ ans, spatialPointReshape "x: 120 y: 340" "aux" = .ok ans ∧
      ans.points =
        ((if (scanPoints "x: 120 y: 340").isEmpty then defaultScanPoints
          else scanPoints "x: 120 y: 340").map
            (fun p => ((p.1 : Int), (p.2 : Int))))) ∧
    scanPoints "x: 120 y: 340" = [(120, 340)] ∧
    (∃ ans, spatialPointReshape "no pairs at all" "aux" = .ok ans ∧
      ans.points =
        ((if (scanPoints "no pairs at all").isEmpty then defaultScanPoints
          else scanPoints "no pairs at all").map
            (fun p => ((p.1 : Int), (p.2 : Int))))) ∧
    scanPoints "no pairs at all" = [] :=
  ⟨C7_points_fallback_scan_then_default "x: 120 y: 340" "aux"
     [("challenge_prompt", .str "failed to parse"),
      ("coordinates", .arr [.obj [("box_2d", .arr [.num 1, .num 1])]])]
     (by decide) (by decide) (by decide),
   by decide,
   C7_points_fallback_scan_then_default "no pairs at all" "aux"
     [("challenge_prompt", .str "failed to parse"),
      ("coordinates", .arr [.obj [("box_2d", .arr [.num 1, .num 1])]])]
     (by decide) (by decide) (by decide),
   by decide⟩

/-! ## Claims about ChallengeClassifier label selection -/

/-- C8: the classifier's label always comes from the 4 fixed labels, chosen
by substring search of each enum value in the lowercased raw response text in
enum definition order — first match wins — and when no value occurs as a
substring the result is the first enum label `image_label_single_select`. -/
theorem C8_label_substring_first_match (text : String) :
    classifyLabel text ∈ challengeTypeOrder ∧
    (occursIn "image_label_single_select".data (pyLower text).data = true →
        classifyLabel text = .image_label_single_select) ∧
    (occursIn "image_label_single_select".data (pyLower text).data = false →
      occursIn "image_label_multi_select".data (pyLower text).data = true →
        classifyLabel text = .image_label_multi_select) ∧
    (occursIn "image_label_single_select".data (pyLower text).data = false →
      occursIn "image_label_multi_select".data (pyLower text).data = false →
      occursIn "image_drag_single".data (pyLower text).data = true →
        classifyLabel text = .image_drag_single) ∧
    (occursIn "image_label_single_select".data (pyLower text).data = false →
      occursIn "image_label_multi_select".data (pyLower text).data = false →
      occursIn "image_drag_single".data (pyLower text).data = false →
      occursIn "image_drag_multi".data (pyLower text).data = true →
        classifyLabel text = .image_drag_multi) ∧
    (occursIn "image_label_single_select".data (pyLower text).data = false →
      occursIn "image_label_multi_select".data (pyLower text).data = false →
      occursIn "image_drag_single".data (pyLower text).data = false →
      occursIn "image_drag_multi".data (pyLower text).data = false →
        classifyLabel text = .image_label_single_select) := by
  cases h1 : occursIn "image_label_single_select".data (pyLower text).data <;>
    cases h2 : occursIn "image_label_multi_select".data (pyLower text).data <;>
      cases h3 : occursIn "image_drag_single".data (pyLower text).data <;>
        cases h4 : occursIn "image_drag_multi".data (pyLower text).data <;>
          simp [classifyLabel, challengeTypeOrder, List.find?,
                ChallengeTypeEnum.value, h1, h2, h3, h4]

/-- C8, witness: a response naming only `image_drag_multi` selects that
label; a response matching nothing falls back to the first enum label. -/
theorem C8_witness :
    classifyLabel "I pick IMAGE_DRAG_MULTI here" = .image_drag_multi ∧
    classifyLabel "gibberish" = .image_label_single_select :=
  ⟨(C8_label_substring_first_match "I pick IMAGE_DRAG_MULTI here").2.2.2.2.1
     (by decide) (by decide) (by decide) (by decide),
   (C8_label_substring_first_match "gibberish").2.2.2.2.2
     (by decide) (by decide) (by decide) (by decide)⟩

/-! ## Claims about retry and fallback behaviour of `invoke_async` -/

/-- Is this chat outcome a raised Transport error (non-success HTTP status,
carrying status and body)? -/
def isTransportErr : Except PyErr String → Bool
  | .error (.transport _ _) => true
  | _ => false

theorem isTransportErr_elim {x : Except PyErr String}
    (h : isTransportErr x = true) : ∃ st bd, x = .error (.transport st bd) := by
  cases x with
  | ok s => simp [isTransportErr] at h
  | error e =>
    cases e with
    | transport st bd => exact ⟨st, bd, rfl⟩
    | timeout => simp [isTransportErr] at h
    | encode m => simp [isTransportErr] at h
    | jsonDecode => simp [isTransportErr] at h
    | typeError => simp [isTransportErr] at h
    | validation => simp [isTransportErr] at h

/-- C1, amended theorem: exceptions raised by the chat call are caught by the
reasoner's inner `except` handler before the retry decorator sees them, so no
retry occurs for Transport failures.  With successful image encodings: a
first-attempt chat success returns the typed answer with 0 retry warnings in
1 attempt, and a first-attempt chat failure returns the fallback answer —
also with 0 retry warnings in 1 attempt (the claimed N retry warnings and
3-second waits never happen; the decorator's fixed 3-second wait only governs
exceptions raised outside the inner `try`). -/
theorem C1_amended_transport_not_retried
    (envsC : Nat → ClassifierEnv) (envsS : Nat → SpatialEnv)
    (aux sc sg si : String)
    (hc : (envsC 0).encodeImage = .ok si)
    (hs1 : (envsS 0).encodeChallenge = .ok sc)
    (hs2 : (envsS 0).encodeGrid = .ok sg) :
    (∀ t, (envsC 0).chat = .ok t →
        challengeClassifierInvokeAsync envsC =
          (.ok (classifyLabel (pyStrip t)), 0, 1)) ∧
    (∀ e, (envsC 0).chat = .error e →
        challengeClassifierInvokeAsync envsC =
          (.ok .image_label_single_select, 0, 1)) ∧
    (∀ t a, (envsS 0).chat = .ok t → spatialPointReshape t aux = .ok a →
        spatialPointInvokeAsync envsS aux = (.ok a, 0, 1)) ∧
    (∀ e, (envsS 0).chat = .error e →
        spatialPointInvokeAsync envsS aux = (.ok spatialFallbackAnswer, 0, 1)) := by
  refine ⟨?_, ?_, ?_, ?_⟩
  · intro t h
    simp [challengeClassifierInvokeAsync, retryStopAfterAttempt3,
          challengeClassifierAttempt, hc, h]
  · intro e h
    simp [challengeClassifierInvokeAsync, retryStopAfterAttempt3,
          challengeClassifierAttempt, hc, h]
  · intro t a h ha
    simp [spatialPointInvokeAsync, retryStopAfterAttempt3, spatialPointAttempt,
          hs1, hs2, h, ha]
  · intro e h
    simp [spatialPointInvokeAsync, retryStopAfterAttempt3, spatialPointAttempt,
          hs1, hs2, h]

/-- C1, witness for the amended theorem: a clean first attempt returns the
classified label with zero retry warnings, and a first-attempt timeout on the
spatial reasoner returns the fallback answer with zero retry warnings. -/
theorem C1_witness :
    challengeClassifierInvokeAsync
        (fun _ => ⟨.ok "blob", .ok " image_drag_single "⟩) =
      (.ok (classifyLabel (pyStrip " image_drag_single ")), 0, 1) ∧
    spatialPointInvokeAsync (fun _ => ⟨.ok "blob", .ok "blob", .error .timeout⟩)
        "" = (.ok spatialFallbackAnswer, 0, 1) :=
  ⟨(C1_amended_transport_not_retried
      (fun _ => ⟨.ok "blob", .ok " image_drag_single "⟩)
      (fun _ => ⟨.ok "blob", .ok "blob", .error .timeout⟩)
      "" "blob" "blob" "blob" rfl rfl rfl).1 _ rfl,
   (C1_amended_transport_not_retried
      (fun _ => ⟨.ok "blob", .ok " image_drag_single "⟩)
      (fun _ => ⟨.ok "blob", .ok "blob", .error .timeout⟩)
      "" "blob" "blob" "blob" rfl rfl rfl).2.2.2 _ rfl⟩

/-- C1, counterexample to the claim as stated: inject one Transport failure
followed by a success whose text names `image_drag_multi`.  The claim
predicts the successful typed answer `image_drag_multi` with exactly 1 retry
warning; the code instead converts the first failure straight into the
fallback label with 0 retry warnings and a single attempt — the second,
successful outcome is never requested. -/
theorem C1_counterexample :
    challengeClassifierInvokeAsync
        (fun k => ⟨.ok "blob",
          if k = 0 then .error (.transport 503 "service unavailable")
          else .ok "image_drag_multi"⟩) =
      (.ok .image_label_single_select, 0, 1) ∧
    classifyLabel (pyStrip "image_drag_multi") = .image_drag_multi ∧
    challengeClassifierInvokeAsync
        (fun k => ⟨.ok "blob",
          if k = 0 then .error (.transport 503 "service unavailable")
          else .ok "image_drag_multi"⟩) ≠
      (.ok .image_drag_multi, 1, 2) := by decide

/-- C5: with Transport failures injected on (at least) the first 3 chat
attempts, `invoke_async` resolves to the reasoner's documented fixed
fallback answer without raising: the spatial point reasoner returns its
fallback coordinates and the classifier returns the first enum label.  (The
inner handler converts the very first failure, so only one attempt is
consumed and no retry warnings are logged.) -/
theorem C5_transport_failures_yield_fallback
    (envsS : Nat → SpatialEnv) (envsC : Nat → ClassifierEnv)
    (aux sc sg si : String)
    (hs1 : (envsS 0).encodeChallenge = .ok sc)
    (hs2 : (envsS 0).encodeGrid = .ok sg)
    (hc : (envsC 0).encodeImage = .ok si)
    (hts : ∀ k, k < 3 → isTransportErr (envsS k).chat = true)
    (htc : ∀ k, k < 3 → isTransportErr (envsC k).chat = true) :
    spatialPointInvokeAsync envsS aux = (.ok spatialFallbackAnswer, 0, 1) ∧
    challengeClassifierInvokeAsync envsC =
      (.ok .image_label_single_select, 0, 1) := by
  obtain ⟨st, bd, hx⟩ := isTransportErr_elim (hts 0 (by norm_num))
  obtain ⟨st2, bd2, hx2⟩ := isTransportErr_elim (htc 0 (by norm_num))
  constructor
  · simp [spatialPointInvokeAsync, retryStopAfterAttempt3, spatialPointAttempt,
          hs1, hs2, hx]
  · simp [challengeClassifierInvokeAsync, retryStopAfterAttempt3,
          challengeClassifierAttempt, hc, hx2]

/-- C5, witness at concrete environments failing every chat call with a
Transport error. -/
theorem C5_witness :
    spatialPointInvokeAsync
        (fun _ => ⟨.ok "b", .ok "g", .error (.transport 500 "boom")⟩) "" =
      (.ok spatialFallbackAnswer, 0, 1) ∧
    challengeClassifierInvokeAsync
        (fun _ => ⟨.ok "b", .error (.transport 500 "boom")⟩) =
      (.ok .image_label_single_select, 0, 1) :=
  C5_transport_failures_yield_fallback
    (fun _ => ⟨.ok "b", .ok "g", .error (.transport 500 "boom")⟩)
    (fun _ => ⟨.ok "b", .error (.transport 500 "boom")⟩)
    "" "b" "g" "b" rfl rfl rfl (fun _ _ => rfl) (fun _ _ => rfl)

/-- C10: an `Encode` failure (unreadable image file) is raised before the
inner `try` block, so it is never converted to the fallback answer: the
retry decorator makes 3 attempts (logging 2 retry warnings, each with the
fixed 3-second wait), and after exhaustion the exception escapes
`invoke_async` to the caller — the result is a raised error, never a typed
answer. -/
theorem C10_encode_error_escapes_after_three_attempts
    (envs : Nat → SpatialEnv) (aux msg : String)
    (he : ∀ k, k < 3 → (envs k).encodeChallenge = .error (.encode msg)) :
    spatialPointInvokeAsync envs aux = (.error (.encode msg), 2, 3) ∧
    ∀ ans w n, spatialPointInvokeAsync envs aux ≠ (.ok ans, w, n) := by
  have h0 := he 0 (by norm_num)
  have h1 := he 1 (by norm_num)
  have h2 := he 2 (by norm_num)
  have hmain : spatialPointInvokeAsync envs aux = (.error (.encode msg), 2, 3) := by
    simp [spatialPointInvokeAsync, retryStopAfterAttempt3, spatialPointAttempt,
          h0, h1, h2]
  refine ⟨hmain, ?_⟩
  intro ans w n hcontra
  rw [hmain] at hcontra
  simp at hcontra

/-- C10, witness at a concrete environment whose challenge screenshot cannot
be read on any attempt. -/
theorem C10_witness :
    spatialPointInvokeAsync
        (fun _ => ⟨.error (.encode "cannot read image"), .ok "g", .ok "c"⟩) "" =
      (.error (.encode "cannot read image"), 2, 3) :=
  (C10_encode_error_escapes_after_three_attempts
    (fun _ => ⟨.error (.encode "cannot read image"), .ok "g", .ok "c"⟩)
    "" "cannot read image" (fun _ _ => rfl)).1
